import Mathlib

/-!
# The `datadog_sensitive_data_scanner_group` resource adapter

A shallow embedding of `datadog/resource_datadog_sensitive_data_scanner_group.go`.

* The Terraform resource data `d` is a record holding the id and the five
  declared schema fields; a Go function that mutates `d` and returns
  diagnostics becomes a function returning the new record and the diagnostics.
* Go run-time panics (nil dereference, failed type assertion) are explicit:
  code that can panic returns `Except Panic _`.
* The API client is a record of functions from a request to the triple
  `(resp, httpResp, err)` the generated client returns.
* What lives outside the repository file (the Terraform SDK accessors, the
  generated client types, the `utils` helpers) is modelled next to its use
  and documented as such.
-/

namespace Datadog

/-! ## Go values and panics -/

/-- Go run-time panics the adapter code can raise. -/
inductive Panic where
  | nilPointerDereference
  | typeAssertion
  deriving DecidableEq, Repr

/-- A dynamically typed Go value (`interface{}`) as handed out by `d.Get` / `d.GetOk`. -/
inductive Value where
  | nil
  | str (s : String)
  | bool (b : Bool)
  | list (xs : List Value)
  | obj (fields : List (String × Value))

/-- Go `v.(string)`: panics unless the dynamic type is `string`. -/
def Value.assertString : Value → Except Panic String
  | .str s => .ok s
  | _ => .error .typeAssertion

/-- Go `v.(bool)`: panics unless the dynamic type is `bool`. -/
def Value.assertBool : Value → Except Panic Bool
  | .bool b => .ok b
  | _ => .error .typeAssertion

/-- Go `v.([]interface{})`: panics unless the dynamic type is a list. -/
def Value.assertList : Value → Except Panic (List Value)
  | .list xs => .ok xs
  | _ => .error .typeAssertion

/-- Go `*p`: dereferencing a nil pointer panics. -/
def deref {α : Type} : Option α → Except Panic α
  | some v => .ok v
  | none => .error .nilPointerDereference

/-! ## Terraform resource data (schema of lines 25-62) -/

/-- One `filter` block: its only field is the optional string `query`. -/
structure FilterBlock where
  query : Option String := none
  deriving DecidableEq, Repr

/-- The resource data of one scanning group: the id plus the five declared
fields. `none` (or the empty block list) means the field is not set. -/
structure ResourceData where
  id : String := ""
  description : Option String := none
  filter : List FilterBlock := []
  is_enabled : Option Bool := none
  name : Option String := none
  product_list : Option (List String) := none
  deriving DecidableEq, Repr

/-- Terraform SDK `d.Id()`. -/
def ResourceData.Id (d : ResourceData) : String := d.id

/-- Terraform SDK `d.SetId(v)`: only the id changes. -/
def ResourceData.SetId (d : ResourceData) (v : String) : ResourceData := { d with id := v }

/-- `GetOk` on an optional string field: the zero value `""` counts as absent. -/
def getOkString : Option String → Value × Bool
  | none => (.str "", false)
  | some s => (.str s, s != "")

/-- `GetOk` on an optional bool field: the zero value `false` counts as absent. -/
def getOkBool : Option Bool → Value × Bool
  | none => (.bool false, false)
  | some b => (.bool b, b)

/-- A filter block as the SDK hands it out: a map with the key `query`. -/
def FilterBlock.toValue (b : FilterBlock) : Value :=
  .obj [("query", .str (b.query.getD ""))]

/-- Terraform SDK `d.GetOk(key)`, for the schema of this resource. The key is
an address into the schema: the five top-level fields, and `filter.0.query`
for the query of the single filter block. The flag is true only when the
field is set and differs from the zero value of its type. A key that does not
address the schema (such as `query` or `version`) yields `(nil, false)`. -/
def ResourceData.GetOk (d : ResourceData) (key : String) : Value × Bool :=
  if key = "description" then getOkString d.description
  else if key = "filter" then (.list (d.filter.map FilterBlock.toValue), !d.filter.isEmpty)
  else if key = "filter.0.query" then
    (match d.filter with
     | [] => (.str "", false)
     | b :: _ => getOkString b.query)
  else if key = "is_enabled" then getOkBool d.is_enabled
  else if key = "name" then getOkString d.name
  else if key = "product_list" then
    (match d.product_list with
     | none => (.list [], false)
     | some xs => (.list (xs.map Value.str), !xs.isEmpty))
  else (.nil, false)

/-- Terraform SDK `d.Get(key)`: the value `GetOk` returns, flag dropped. -/
def ResourceData.Get (d : ResourceData) (key : String) : Value := (d.GetOk key).1

/-! ## Generated API client types (package `datadogV2`) -/

/-- Go `type SensitiveDataScannerProduct string`. -/
abbrev SensitiveDataScannerProduct := String

/-- Modelled from the spec: the enum constructor of the generated client is
not in the repository. For a value the enum allows it returns a pointer to
it and no error; otherwise a nil pointer and an error. The table of allowed
values is the parameter `isValid`. -/
def NewSensitiveDataScannerProductFromValue (isValid : String → Bool) (v : String) :
    Option SensitiveDataScannerProduct × Option String :=
  if isValid v then (some v, none)
  else (none, some ("invalid value " ++ v ++ " for SensitiveDataScannerProduct"))

/-- Client type `SensitiveDataScannerFilter`; `none` is an unset field. -/
structure SensitiveDataScannerFilter where
  Query : Option String := none
  deriving DecidableEq, Repr

/-- Client type `SensitiveDataScannerGroupAttributes`; `none` is an unset
field (nil pointer or nil slice). -/
structure SensitiveDataScannerGroupAttributes where
  Description : Option String := none
  Filter : Option SensitiveDataScannerFilter := none
  IsEnabled : Option Bool := none
  Name : Option String := none
  ProductList : Option (List SensitiveDataScannerProduct) := none
  deriving DecidableEq, Repr

/-- Modelled from the spec: library defaults of the filter, nothing set. -/
def NewSensitiveDataScannerFilterWithDefaults : SensitiveDataScannerFilter := {}

/-- Modelled from the spec: library defaults of the attributes, nothing set. -/
def NewSensitiveDataScannerGroupAttributesWithDefaults : SensitiveDataScannerGroupAttributes := {}

def SensitiveDataScannerFilter.SetQuery (o : SensitiveDataScannerFilter) (v : String) :
    SensitiveDataScannerFilter := { o with Query := some v }

def SensitiveDataScannerGroupAttributes.SetDescription (o : SensitiveDataScannerGroupAttributes)
    (v : String) : SensitiveDataScannerGroupAttributes := { o with Description := some v }

def SensitiveDataScannerGroupAttributes.SetFilter (o : SensitiveDataScannerGroupAttributes)
    (v : SensitiveDataScannerFilter) : SensitiveDataScannerGroupAttributes :=
  { o with Filter := some v }

def SensitiveDataScannerGroupAttributes.SetIsEnabled (o : SensitiveDataScannerGroupAttributes)
    (v : Bool) : SensitiveDataScannerGroupAttributes := { o with IsEnabled := some v }

def SensitiveDataScannerGroupAttributes.SetName (o : SensitiveDataScannerGroupAttributes)
    (v : String) : SensitiveDataScannerGroupAttributes := { o with Name := some v }

def SensitiveDataScannerGroupAttributes.SetProductList (o : SensitiveDataScannerGroupAttributes)
    (v : List SensitiveDataScannerProduct) : SensitiveDataScannerGroupAttributes :=
  { o with ProductList := some v }

/-- Client type `SensitiveDataScannerGroupCreate`, reduced to its attributes. -/
structure SensitiveDataScannerGroupCreate where
  Attributes : Option SensitiveDataScannerGroupAttributes := none
  deriving DecidableEq, Repr

/-- Client type `SensitiveDataScannerGroupCreateRequest`: `Data` is a pointer. -/
structure SensitiveDataScannerGroupCreateRequest where
  Data : Option SensitiveDataScannerGroupCreate := none
  deriving DecidableEq, Repr

/-- Client type `SensitiveDataScannerGroupUpdate`, reduced to its attributes. -/
structure SensitiveDataScannerGroupUpdate where
  Attributes : Option SensitiveDataScannerGroupAttributes := none
  deriving DecidableEq, Repr

/-- Client type `SensitiveDataScannerGroupUpdateRequest`: `Data` is a value. -/
structure SensitiveDataScannerGroupUpdateRequest where
  Data : SensitiveDataScannerGroupUpdate := {}
  deriving DecidableEq, Repr

def NewSensitiveDataScannerGroupCreateWithDefaults : SensitiveDataScannerGroupCreate := {}

def NewSensitiveDataScannerGroupCreateRequestWithDefaults :
    SensitiveDataScannerGroupCreateRequest := {}

def NewSensitiveDataScannerGroupUpdateWithDefaults : SensitiveDataScannerGroupUpdate := {}

def NewSensitiveDataScannerGroupUpdateRequestWithDefaults :
    SensitiveDataScannerGroupUpdateRequest := {}

def SensitiveDataScannerGroupCreate.SetAttributes (o : SensitiveDataScannerGroupCreate)
    (v : SensitiveDataScannerGroupAttributes) : SensitiveDataScannerGroupCreate :=
  { o with Attributes := some v }

def SensitiveDataScannerGroupUpdate.SetAttributes (o : SensitiveDataScannerGroupUpdate)
    (v : SensitiveDataScannerGroupAttributes) : SensitiveDataScannerGroupUpdate :=
  { o with Attributes := some v }

/-! ## Request builders (lines 106-138 and 161-193) -/

/-- The body of the `for` loop over `product_list` (lines 127-130 and
182-185, textually the same): the error of the enum constructor is dropped
and the returned pointer is dereferenced and appended. -/
def appendProductItem (isValid : String → Bool) (productList : List SensitiveDataScannerProduct)
    (s : Value) : Except Panic (List SensitiveDataScannerProduct) := do
  let (sensitiveDataScannerProductItem, _) :=
    NewSensitiveDataScannerProductFromValue isValid (← s.assertString)
  pure (productList ++ [← deref sensitiveDataScannerProductItem])

/-- Source lines 106-138. -/
def buildSensitiveDataScannerGroupRequestBody (isValid : String → Bool) (d : ResourceData) :
    Except Panic SensitiveDataScannerGroupCreateRequest := do
  let attributes := NewSensitiveDataScannerGroupAttributesWithDefaults
  let (description, ok) := d.GetOk "description"
  let attributes ←
    if ok then (do pure (attributes.SetDescription (← description.assertString)))
    else pure attributes
  let filter := NewSensitiveDataScannerFilterWithDefaults
  let (query, ok) := d.GetOk "query"
  let filter ←
    if ok then (do pure (filter.SetQuery (← query.assertString)))
    else pure filter
  let attributes := attributes.SetFilter filter
  let (isEnabled, ok) := d.GetOk "is_enabled"
  let attributes ←
    if ok then (do pure (attributes.SetIsEnabled (← isEnabled.assertBool)))
    else pure attributes
  let (name, ok) := d.GetOk "name"
  let attributes ←
    if ok then (do pure (attributes.SetName (← name.assertString)))
    else pure attributes
  let productList : List SensitiveDataScannerProduct := []
  let productList ← (← (d.Get "product_list").assertList).foldlM
    (appendProductItem isValid) productList
  let attributes := attributes.SetProductList productList
  let req := NewSensitiveDataScannerGroupCreateRequestWithDefaults
  let req := { req with Data := some NewSensitiveDataScannerGroupCreateWithDefaults }
  let data ← deref req.Data
  pure { req with Data := some (data.SetAttributes attributes) }

/-- Source lines 161-193. -/
def buildSensitiveDataScannerGroupUpdateRequestBody (isValid : String → Bool) (d : ResourceData) :
    Except Panic SensitiveDataScannerGroupUpdateRequest := do
  let attributes := NewSensitiveDataScannerGroupAttributesWithDefaults
  let (description, ok) := d.GetOk "description"
  let attributes ←
    if ok then (do pure (attributes.SetDescription (← description.assertString)))
    else pure attributes
  let filter := NewSensitiveDataScannerFilterWithDefaults
  let (query, ok) := d.GetOk "query"
  let filter ←
    if ok then (do pure (filter.SetQuery (← query.assertString)))
    else pure filter
  let attributes := attributes.SetFilter filter
  let (isEnabled, ok) := d.GetOk "is_enabled"
  let attributes ←
    if ok then (do pure (attributes.SetIsEnabled (← isEnabled.assertBool)))
    else pure attributes
  let (name, ok) := d.GetOk "name"
  let attributes ←
    if ok then (do pure (attributes.SetName (← name.assertString)))
    else pure attributes
  let productList : List SensitiveDataScannerProduct := []
  let productList ← (← (d.Get "product_list").assertList).foldlM
    (appendProductItem isValid) productList
  let attributes := attributes.SetProductList productList
  let req := NewSensitiveDataScannerGroupUpdateRequestWithDefaults
  let req := { req with Data := NewSensitiveDataScannerGroupUpdateWithDefaults }
  pure { req with Data := req.Data.SetAttributes attributes }

/-! ## Diagnostics, HTTP responses and the `utils` helpers -/

/-- Terraform SDK `diag.Severity`. -/
inductive Severity where
  | Error
  | Warning
  deriving DecidableEq, Repr

/-- Terraform SDK `diag.Diagnostic`, reduced to severity and summary. -/
structure Diagnostic where
  Severity : Severity
  Summary : String
  deriving DecidableEq, Repr

/-- Terraform SDK `diag.Diagnostics`; Go `nil` is the empty list. -/
abbrev Diagnostics := List Diagnostic

/-- Terraform SDK `diags.HasError()`. -/
def Diagnostics.HasError (diags : Diagnostics) : Bool :=
  diags.any (fun x => x.Severity == Severity.Error)

/-- Terraform SDK `diag.FromErr(err)` for a non-nil error: one error diagnostic. -/
def diag.FromErr (err : String) : Diagnostics :=
  [{ Severity := Severity.Error, Summary := err }]

/-- Go `*http.Response`, reduced to the status code. -/
structure HttpResponse where
  StatusCode : Int
  deriving DecidableEq, Repr

/-- Modelled from the spec: `utils.TranslateClientErrorDiag` is not in the
repository files at hand. Any transport or API error is translated into a
diagnostic carrying the context message wrapped around the error; the HTTP
response does not change that. -/
def utils.TranslateClientErrorDiag (err : String) (_httpResp : Option HttpResponse)
    (msg : String) : Diagnostics :=
  diag.FromErr (msg ++ ": " ++ err)

/-- Responses of the generated client record whether they hold an element
the client could not parse. -/
class Unparsable (ρ : Type) where
  hasUnparsed : ρ → Bool

/-- Modelled from the spec: `utils.CheckForUnparsed` is not in the repository
files at hand. It returns an error exactly when the response holds an
unparsed element. -/
def utils.CheckForUnparsed {ρ : Type} [Unparsable ρ] (resp : ρ) : Option String :=
  if Unparsable.hasUnparsed resp then some "object contains unparsed element" else none

/-! ## The generated client: responses and calls -/

/-- Client type `SensitiveDataScannerGetConfigResponse`, as far as the adapter looks. -/
structure SensitiveDataScannerGetConfigResponse where
  Unparsed : Bool := false
  deriving DecidableEq, Repr

/-- Client type `SensitiveDataScannerGroupResponse`, reduced to the id. -/
structure SensitiveDataScannerGroupResponse where
  Id : Option String := none
  deriving DecidableEq, Repr

/-- Generated getter `GetId` on a possibly nil pointer: the zero value `""`
when the pointer or the id is nil. -/
def SensitiveDataScannerGroupResponse.GetId : Option SensitiveDataScannerGroupResponse → String
  | some o => o.Id.getD ""
  | none => ""

/-- Response of `CreateScanningGroup`, as far as the adapter looks. -/
structure SensitiveDataScannerCreateGroupResponse where
  Data : Option SensitiveDataScannerGroupResponse := none
  Unparsed : Bool := false
  deriving DecidableEq, Repr

/-- Response of `UpdateScanningGroup`, as far as the adapter looks. -/
structure SensitiveDataScannerGroupUpdateResponse where
  Data : Option SensitiveDataScannerGroupResponse := none
  Unparsed : Bool := false
  deriving DecidableEq, Repr

/-- Response of `DeleteScanningGroup`; the adapter discards it. -/
structure SensitiveDataScannerGroupDeleteResponse where
  Unparsed : Bool := false
  deriving DecidableEq, Repr

instance : Unparsable SensitiveDataScannerGetConfigResponse := ⟨fun r => r.Unparsed⟩

instance : Unparsable SensitiveDataScannerCreateGroupResponse := ⟨fun r => r.Unparsed⟩

instance : Unparsable SensitiveDataScannerGroupUpdateResponse := ⟨fun r => r.Unparsed⟩

/-- Client type `SensitiveDataScannerMetaVersionOnly`. -/
structure SensitiveDataScannerMetaVersionOnly where
  Version : Option Int := none
  deriving DecidableEq, Repr

/-- Client type `SensitiveDataScannerGroupDeleteRequest`. -/
structure SensitiveDataScannerGroupDeleteRequest where
  Meta : Option SensitiveDataScannerMetaVersionOnly := none
  deriving DecidableEq, Repr

def NewSensitiveDataScannerGroupDeleteRequestWithDefaults :
    SensitiveDataScannerGroupDeleteRequest := {}

def NewSensitiveDataScannerMetaVersionOnlyWithDefaults : SensitiveDataScannerMetaVersionOnly := {}

def SensitiveDataScannerMetaVersionOnly.SetVersion (o : SensitiveDataScannerMetaVersionOnly)
    (v : Int) : SensitiveDataScannerMetaVersionOnly := { o with Version := some v }

def SensitiveDataScannerGroupDeleteRequest.SetMeta (o : SensitiveDataScannerGroupDeleteRequest)
    (v : SensitiveDataScannerMetaVersionOnly) : SensitiveDataScannerGroupDeleteRequest :=
  { o with Meta := some v }

/-- The triple `(resp, httpResp, err)` every call of the generated client returns. -/
structure ApiResult (ρ : Type) where
  resp : ρ
  httpResp : Option HttpResponse
  err : Option String

/-- The sensitive-data-scanner API of the provider configuration (with its
auth context): one function per endpoint the adapter calls. -/
structure SensitiveDataScannerApi where
  ListScanningGroups : ApiResult SensitiveDataScannerGetConfigResponse
  CreateScanningGroup :
    SensitiveDataScannerGroupCreateRequest → ApiResult SensitiveDataScannerCreateGroupResponse
  UpdateScanningGroup : String → SensitiveDataScannerGroupUpdateRequest →
    ApiResult SensitiveDataScannerGroupUpdateResponse
  DeleteScanningGroup : String → SensitiveDataScannerGroupDeleteRequest →
    ApiResult SensitiveDataScannerGroupDeleteResponse

/-- Decimal digits to a number; `none` for an empty or non-digit input. -/
def parseDecimal (cs : List Char) : Option Nat :=
  if cs.isEmpty then none
  else cs.foldlM (fun acc c => if c.isDigit then some (acc * 10 + (c.toNat - 48)) else none) 0

/-- Go `strconv.ParseInt(s, 10, 64)`: the value and the error. A syntax error
gives 0; a value out of the int64 range is clamped to the nearest bound. -/
def strconv.ParseInt (s : String) : Int × Option String :=
  let cs := s.toList
  let neg := cs.head? == some (Char.ofNat 45)
  let body := if cs.head? == some (Char.ofNat 43) || neg then cs.tail else cs
  match parseDecimal body with
  | none => (0, some "invalid syntax")
  | some un =>
    if !neg && un ≥ 2 ^ 63 then (2 ^ 63 - 1, some "value out of range")
    else if neg && un > 2 ^ 63 then (-(2 ^ 63), some "value out of range")
    else (if neg then -(un : Int) else (un : Int), none)

/-! ## The four handlers -/

/-- Source lines 219-222: the state reconciliation is an empty stub. -/
def updateSensitiveDataScannerGroupState {ρ : Type} (d : ResourceData) (_resp : ρ) :
    ResourceData × Diagnostics :=
  (d, [])

/-- Source lines 66-85. -/
def resourceDatadogSensitiveDataScannerGroupRead (api : SensitiveDataScannerApi)
    (d : ResourceData) : ResourceData × Diagnostics :=
  let ⟨resp, httpResp, err⟩ := api.ListScanningGroups
  match err with
  | some err =>
    if (match httpResp with
        | some r => r.StatusCode == 404
        | none => false) then
      (d.SetId "", [])
    else
      (d, utils.TranslateClientErrorDiag err httpResp "error calling ListScanningGroups")
  | none =>
    match utils.CheckForUnparsed resp with
    | some err => (d, diag.FromErr err)
    | none => updateSensitiveDataScannerGroupState d resp

/-- Source lines 87-104. -/
def resourceDatadogSensitiveDataScannerGroupCreate (isValid : String → Bool)
    (api : SensitiveDataScannerApi) (d : ResourceData) :
    Except Panic (ResourceData × Diagnostics) := do
  let body ← buildSensitiveDataScannerGroupRequestBody isValid d
  let ⟨resp, httpResp, err⟩ := api.CreateScanningGroup body
  match err with
  | some err =>
    pure (d, utils.TranslateClientErrorDiag err httpResp "error creating SensitiveDataScannerGroup")
  | none =>
    match utils.CheckForUnparsed resp with
    | some err => pure (d, diag.FromErr err)
    | none =>
      let d := d.SetId (SensitiveDataScannerGroupResponse.GetId resp.Data)
      pure (updateSensitiveDataScannerGroupState d resp)

/-- Source lines 140-159. -/
def resourceDatadogSensitiveDataScannerGroupUpdate (isValid : String → Bool)
    (api : SensitiveDataScannerApi) (d : ResourceData) :
    Except Panic (ResourceData × Diagnostics) := do
  let id := d.Id
  let body ← buildSensitiveDataScannerGroupUpdateRequestBody isValid d
  let ⟨resp, httpResp, err⟩ := api.UpdateScanningGroup id body
  match err with
  | some err =>
    pure (d, utils.TranslateClientErrorDiag err httpResp "error creating SensitiveDataScannerGroup")
  | none =>
    match utils.CheckForUnparsed resp with
    | some err => pure (d, diag.FromErr err)
    | none =>
      let d := d.SetId (SensitiveDataScannerGroupResponse.GetId resp.Data)
      pure (updateSensitiveDataScannerGroupState d resp)

/-- Source lines 195-217. -/
def resourceDatadogSensitiveDataScannerGroupDelete (api : SensitiveDataScannerApi)
    (d : ResourceData) : Except Panic (ResourceData × Diagnostics) := do
  let id := d.Id
  let body := NewSensitiveDataScannerGroupDeleteRequestWithDefaults
  let metaVar := NewSensitiveDataScannerMetaVersionOnlyWithDefaults
  let (version, ok) := d.GetOk "version"
  let metaVar ←
    if ok then (do
      let (versionInt, _) := strconv.ParseInt (← version.assertString)
      pure (metaVar.SetVersion versionInt))
    else pure metaVar
  let body := body.SetMeta metaVar
  let ⟨_, httpResp, err⟩ := api.DeleteScanningGroup id body
  match err with
  | some err =>
    -- The resource is assumed to still exist, and all prior state is preserved.
    pure (d, utils.TranslateClientErrorDiag err httpResp "error deleting SensitiveDataScannerGroup")
  | none => pure (d, [])

/-! ## Closed forms of the builders -/

/-- The attributes both builders compute when no product entry is rejected. -/
def builtAttributes (d : ResourceData) : SensitiveDataScannerGroupAttributes :=
  { Description := d.description.filter (fun s => s != "")
    Filter := some { Query := none }
    IsEnabled := d.is_enabled.filter (fun b => b)
    Name := d.name.filter (fun s => s != "")
    ProductList := some (d.product_list.getD []) }

theorem appendProductItem_str (isValid : String → Bool) (acc : List SensitiveDataScannerProduct)
    (s : String) :
    appendProductItem isValid acc (Value.str s) =
      if isValid s then Except.ok (acc ++ [s]) else Except.error Panic.nilPointerDereference := by
  unfold appendProductItem NewSensitiveDataScannerProductFromValue
  by_cases h : isValid s = true <;> simp [h, Value.assertString, deref, bind, Except.bind, pure, Except.pure]

theorem foldlM_appendProductItem (isValid : String → Bool) (xs : List String) :
    ∀ acc : List SensitiveDataScannerProduct,
      (xs.map Value.str).foldlM (appendProductItem isValid) acc =
        if xs.all isValid then Except.ok (acc ++ xs)
        else Except.error Panic.nilPointerDereference := by
  induction xs with
  | nil => intro acc; simp [pure, Except.pure]
  | cons s rest ih =>
    intro acc
    simp only [List.map_cons, List.foldlM_cons, appendProductItem_str]
    by_cases h : isValid s = true
    · simp [h, bind, Except.bind, ih]
    · simp [h, bind, Except.bind]

theorem build_create_eq (isValid : String → Bool) (d : ResourceData) :
    buildSensitiveDataScannerGroupRequestBody isValid d =
      if (d.product_list.getD []).all isValid then
        Except.ok { Data := some { Attributes := some (builtAttributes d) } }
      else Except.error Panic.nilPointerDereference := by
  obtain ⟨id, desc, filt, en, nm, pl⟩ := d
  simp only [buildSensitiveDataScannerGroupRequestBody, ResourceData.GetOk, ResourceData.Get]
  simp only [String.reduceEq, ite_true, ite_false, if_true, if_false, reduceIte]
  rcases desc with _ | desc <;> rcases en with _ | (_ | _) <;> rcases nm with _ | nm <;>
    rcases pl with _ | pl <;>
    simp [getOkString, getOkBool, Value.assertString, Value.assertBool, Value.assertList,
      foldlM_appendProductItem, builtAttributes, deref, bind, Except.bind, pure, Except.pure,
      Functor.map, Except.map,
      SensitiveDataScannerGroupAttributes.SetDescription,
      SensitiveDataScannerGroupAttributes.SetFilter,
      SensitiveDataScannerGroupAttributes.SetIsEnabled,
      SensitiveDataScannerGroupAttributes.SetName,
      SensitiveDataScannerGroupAttributes.SetProductList,
      SensitiveDataScannerGroupCreate.SetAttributes,
      NewSensitiveDataScannerGroupAttributesWithDefaults,
      NewSensitiveDataScannerFilterWithDefaults,
      NewSensitiveDataScannerGroupCreateWithDefaults,
      NewSensitiveDataScannerGroupCreateRequestWithDefaults, Option.filter] <;>
    split_ifs <;> simp_all

theorem build_update_eq (isValid : String → Bool) (d : ResourceData) :
    buildSensitiveDataScannerGroupUpdateRequestBody isValid d =
      if (d.product_list.getD []).all isValid then
        Except.ok { Data := { Attributes := some (builtAttributes d) } }
      else Except.error Panic.nilPointerDereference := by
  obtain ⟨id, desc, filt, en, nm, pl⟩ := d
  simp only [buildSensitiveDataScannerGroupUpdateRequestBody, ResourceData.GetOk,
    ResourceData.Get]
  simp only [String.reduceEq, ite_true, ite_false, if_true, if_false, reduceIte]
  rcases desc with _ | desc <;> rcases en with _ | (_ | _) <;> rcases nm with _ | nm <;>
    rcases pl with _ | pl <;>
    simp [getOkString, getOkBool, Value.assertString, Value.assertBool, Value.assertList,
      foldlM_appendProductItem, builtAttributes, deref, bind, Except.bind, pure, Except.pure,
      Functor.map, Except.map,
      SensitiveDataScannerGroupAttributes.SetDescription,
      SensitiveDataScannerGroupAttributes.SetFilter,
      SensitiveDataScannerGroupAttributes.SetIsEnabled,
      SensitiveDataScannerGroupAttributes.SetName,
      SensitiveDataScannerGroupAttributes.SetProductList,
      SensitiveDataScannerGroupUpdate.SetAttributes,
      NewSensitiveDataScannerGroupAttributesWithDefaults,
      NewSensitiveDataScannerFilterWithDefaults,
      NewSensitiveDataScannerGroupUpdateWithDefaults,
      NewSensitiveDataScannerGroupUpdateRequestWithDefaults, Option.filter] <;>
    split_ifs <;> simp_all

/-- The delete request the adapter sends: `version` is not a schema key, so
the meta never carries a version. -/
theorem delete_eq (api : SensitiveDataScannerApi) (d : ResourceData) :
    resourceDatadogSensitiveDataScannerGroupDelete api d =
      Except.ok (d,
        match (api.DeleteScanningGroup d.id { Meta := some { Version := none } }).err with
        | some err =>
          utils.TranslateClientErrorDiag err
            (api.DeleteScanningGroup d.id { Meta := some { Version := none } }).httpResp
            "error deleting SensitiveDataScannerGroup"
        | none => []) := by
  simp only [resourceDatadogSensitiveDataScannerGroupDelete, ResourceData.GetOk, ResourceData.Id]
  simp only [String.reduceEq, ite_true, ite_false, if_true, if_false, reduceIte]
  simp only [NewSensitiveDataScannerGroupDeleteRequestWithDefaults,
    NewSensitiveDataScannerMetaVersionOnlyWithDefaults,
    SensitiveDataScannerGroupDeleteRequest.SetMeta, bind, Except.bind, pure, Except.pure]
  rcases h : api.DeleteScanningGroup d.id { Meta := some { Version := none } } with
    ⟨resp, httpResp, err⟩
  cases err <;> simp [h]

/-! ## Sample inputs -/

/-- A client that answers every call with the same HTTP response, error,
group data and unparsed flag. -/
def uniformApi (httpResp : Option HttpResponse) (err : Option String)
    (data : Option SensitiveDataScannerGroupResponse) (unparsed : Bool) :
    SensitiveDataScannerApi :=
  { ListScanningGroups := ⟨{ Unparsed := unparsed }, httpResp, err⟩
    CreateScanningGroup := fun _ => ⟨{ Data := data, Unparsed := unparsed }, httpResp, err⟩
    UpdateScanningGroup := fun _ _ => ⟨{ Data := data, Unparsed := unparsed }, httpResp, err⟩
    DeleteScanningGroup := fun _ _ => ⟨{ Unparsed := unparsed }, httpResp, err⟩ }

/-- A client whose every call fails with status 404. -/
def notFoundApi : SensitiveDataScannerApi :=
  uniformApi (some { StatusCode := 404 }) (some "404 Not Found") none false

/-- A client whose every call succeeds and reports the group id `abc-123`. -/
def okApi : SensitiveDataScannerApi :=
  uniformApi (some { StatusCode := 200 }) none (some { Id := some "abc-123" }) false

/-- An enum table that allows exactly the token `DD_EVENTS`. -/
def onlyEvents (s : String) : Bool := s == "DD_EVENTS"

/-- The state of the scenario: `name="g1", is_enabled=true, product_list=["DD_EVENTS"]`. -/
def g1State : ResourceData :=
  { name := some "g1", is_enabled := some true, product_list := some ["DD_EVENTS"] }

/-- The scenario state once it carries the id `abc-123`. -/
def storedState : ResourceData := { g1State with id := "abc-123" }

/-- The diagnostics Create returns when the create call fails with `404 Not Found`. -/
def createFailure : Diagnostics :=
  utils.TranslateClientErrorDiag "404 Not Found" (some { StatusCode := 404 })
    "error creating SensitiveDataScannerGroup"

/-! ## Helper facts on the handlers -/

theorem hasError_nil : Diagnostics.HasError [] = false := rfl

theorem create_result (isValid : String → Bool) (api : SensitiveDataScannerApi)
    (d : ResourceData) (r : ResourceData × Diagnostics)
    (h : resourceDatadogSensitiveDataScannerGroupCreate isValid api d = Except.ok r) :
    ∃ body, buildSensitiveDataScannerGroupRequestBody isValid d = Except.ok body ∧
      (((api.CreateScanningGroup body).err ≠ none ∨
            (api.CreateScanningGroup body).resp.Unparsed = true) ∧
          r.1 = d ∧ r.2.HasError = true ∨
        ((api.CreateScanningGroup body).err = none ∧
            (api.CreateScanningGroup body).resp.Unparsed = false) ∧
          r.2 = []) := by
  unfold resourceDatadogSensitiveDataScannerGroupCreate at h
  rcases hb : buildSensitiveDataScannerGroupRequestBody isValid d with e | body
  · simp [hb, bind, Except.bind] at h
  · refine ⟨body, rfl, ?_⟩
    rcases hc : api.CreateScanningGroup body with ⟨⟨data, unparsed⟩, httpResp, err⟩
    simp only [hb, hc, bind, Except.bind, pure, Except.pure] at h
    cases err <;> cases unparsed <;>
      simp [utils.CheckForUnparsed, Unparsable.hasUnparsed,
        updateSensitiveDataScannerGroupState] at h <;>
      subst h <;>
      simp [utils.TranslateClientErrorDiag, diag.FromErr, Diagnostics.HasError]

theorem update_result (isValid : String → Bool) (api : SensitiveDataScannerApi)
    (d : ResourceData) (r : ResourceData × Diagnostics)
    (h : resourceDatadogSensitiveDataScannerGroupUpdate isValid api d = Except.ok r) :
    ∃ body, buildSensitiveDataScannerGroupUpdateRequestBody isValid d = Except.ok body ∧
      (((api.UpdateScanningGroup d.Id body).err ≠ none ∨
            (api.UpdateScanningGroup d.Id body).resp.Unparsed = true) ∧
          r.1 = d ∧ r.2.HasError = true ∨
        ((api.UpdateScanningGroup d.Id body).err = none ∧
            (api.UpdateScanningGroup d.Id body).resp.Unparsed = false) ∧
          r.2 = []) := by
  unfold resourceDatadogSensitiveDataScannerGroupUpdate at h
  rcases hb : buildSensitiveDataScannerGroupUpdateRequestBody isValid d with e | body
  · simp [hb, bind, Except.bind] at h
  · refine ⟨body, rfl, ?_⟩
    rcases hc : api.UpdateScanningGroup d.Id body with ⟨⟨data, unparsed⟩, httpResp, err⟩
    simp only [hb, hc, bind, Except.bind, pure, Except.pure] at h
    cases err <;> cases unparsed <;>
      simp [utils.CheckForUnparsed, Unparsable.hasUnparsed,
        updateSensitiveDataScannerGroupState] at h <;>
      subst h <;>
      simp [utils.TranslateClientErrorDiag, diag.FromErr, Diagnostics.HasError]

theorem read_result (api : SensitiveDataScannerApi) (d : ResourceData) :
    (resourceDatadogSensitiveDataScannerGroupRead api d).1 = d ∨
      (resourceDatadogSensitiveDataScannerGroupRead api d).2 = [] := by
  unfold resourceDatadogSensitiveDataScannerGroupRead
  rcases api.ListScanningGroups with ⟨⟨unparsed⟩, httpResp, err⟩
  cases err <;> cases unparsed <;>
    simp [utils.CheckForUnparsed, Unparsable.hasUnparsed, updateSensitiveDataScannerGroupState]
  all_goals split_ifs <;> simp

/-! ## Read -/

/-- C1: when `ListScanningGroups` fails and its HTTP response has status 404,
Read leaves a state with the empty id (nothing else changed) and returns no
diagnostics. -/
theorem read_not_found_clears_id (api : SensitiveDataScannerApi) (d : ResourceData)
    (err : String) (r : HttpResponse)
    (herr : api.ListScanningGroups.err = some err)
    (hresp : api.ListScanningGroups.httpResp = some r)
    (h404 : r.StatusCode = 404) :
    (resourceDatadogSensitiveDataScannerGroupRead api d).1.Id = "" ∧
      (resourceDatadogSensitiveDataScannerGroupRead api d).2 = [] ∧
      resourceDatadogSensitiveDataScannerGroupRead api d = ({ d with id := "" }, []) := by
  rcases h : api.ListScanningGroups with ⟨resp, httpResp, e⟩
  rw [h] at herr hresp
  simp only at herr hresp
  subst herr hresp
  simp [resourceDatadogSensitiveDataScannerGroupRead, h, h404, ResourceData.SetId,
    ResourceData.Id]

/-- C1 at a concrete input: a state with id `abc-123` and a 404 from the list call. -/
theorem read_not_found_clears_id_witness :
    notFoundApi.ListScanningGroups.err = some "404 Not Found" ∧
      notFoundApi.ListScanningGroups.httpResp = some { StatusCode := 404 } ∧
      (resourceDatadogSensitiveDataScannerGroupRead notFoundApi
          { g1State with id := "abc-123" }).1.Id = "" ∧
      (resourceDatadogSensitiveDataScannerGroupRead notFoundApi
          { g1State with id := "abc-123" }).2 = [] ∧
      resourceDatadogSensitiveDataScannerGroupRead notFoundApi { g1State with id := "abc-123" } =
        ({ { g1State with id := "abc-123" } with id := "" }, []) :=
  ⟨rfl, rfl, read_not_found_clears_id notFoundApi { g1State with id := "abc-123" }
    "404 Not Found" { StatusCode := 404 } rfl rfl rfl⟩

/-! ## Delete -/

/-- Create on a state whose product entries are all accepted: when the
create call returns no error, nothing unparsed and data carrying id `i`,
Create returns no diagnostics and a state whose id is `i` and whose declared
attributes are those of the state it was called with. -/
theorem create_stores_id_of_valid (isValid : String → Bool) (api : SensitiveDataScannerApi)
    (d : ResourceData) (g : SensitiveDataScannerGroupResponse) (i : String)
    (hvalid : ∀ s ∈ d.product_list.getD [], isValid s = true)
    (herr : (api.CreateScanningGroup
      { Data := some { Attributes := some (builtAttributes d) } }).err = none)
    (hunparsed : (api.CreateScanningGroup
      { Data := some { Attributes := some (builtAttributes d) } }).resp.Unparsed = false)
    (hdata : (api.CreateScanningGroup
      { Data := some { Attributes := some (builtAttributes d) } }).resp.Data = some g)
    (hid : g.Id = some i) :
    ∃ d1 : ResourceData,
      resourceDatadogSensitiveDataScannerGroupCreate isValid api d = Except.ok (d1, []) ∧
        d1.Id = i ∧ d1.description = d.description ∧ d1.filter = d.filter ∧
        d1.is_enabled = d.is_enabled ∧ d1.name = d.name ∧ d1.product_list = d.product_list := by
  refine ⟨{ d with id := i }, ?_, rfl, rfl, rfl, rfl, rfl, rfl⟩
  have hbody : buildSensitiveDataScannerGroupRequestBody isValid d =
      Except.ok { Data := some { Attributes := some (builtAttributes d) } } := by
    rw [build_create_eq, if_pos (List.all_eq_true.mpr hvalid)]
  rcases h : api.CreateScanningGroup
    { Data := some { Attributes := some (builtAttributes d) } } with ⟨resp, httpResp, err⟩
  rw [h] at herr hunparsed hdata
  simp only at herr hunparsed hdata
  subst herr
  simp [resourceDatadogSensitiveDataScannerGroupCreate, hbody, h, bind, Except.bind, pure,
    Except.pure, utils.CheckForUnparsed, Unparsable.hasUnparsed, hunparsed, hdata, hid,
    SensitiveDataScannerGroupResponse.GetId, updateSensitiveDataScannerGroupState,
    ResourceData.SetId]

/-- C3, what the code does: on a state whose product_list holds an entry
the enum constructor rejects, Create ends in the nil-pointer panic of the
request builder, whatever the client would answer, so it neither returns
diagnostics nor stores an id. -/
theorem create_invalid_product_panics (isValid : String → Bool)
    (api : SensitiveDataScannerApi) (d : ResourceData)
    (hinvalid : ∃ s ∈ d.product_list.getD [], isValid s = false) :
    resourceDatadogSensitiveDataScannerGroupCreate isValid api d =
      Except.error Panic.nilPointerDereference := by
  have h : ¬ (d.product_list.getD []).all isValid = true := by
    rw [List.all_eq_true]
    obtain ⟨s, hs, hf⟩ := hinvalid
    intro hall
    have := hall s hs
    simp [hf] at this
  simp only [resourceDatadogSensitiveDataScannerGroupCreate, build_create_eq, if_neg h]
  rfl

/-- C3 at a concrete input: the scenario state with `product_list = ["bogus"]`
and a client whose every answer is a success carrying id `abc-123`; the same
client and state with `product_list = ["DD_EVENTS"]` store the id. -/
theorem create_invalid_product_panics_witness :
    (∃ s ∈ ({ g1State with product_list := some ["bogus"] } :
        ResourceData).product_list.getD [], onlyEvents s = false) ∧
      (∀ body, (okApi.CreateScanningGroup body).err = none ∧
        (okApi.CreateScanningGroup body).resp.Unparsed = false ∧
        (okApi.CreateScanningGroup body).resp.Data = some { Id := some "abc-123" }) ∧
      resourceDatadogSensitiveDataScannerGroupCreate onlyEvents okApi
          { g1State with product_list := some ["bogus"] } =
        Except.error Panic.nilPointerDereference ∧
      resourceDatadogSensitiveDataScannerGroupCreate onlyEvents okApi g1State =
        Except.ok ({ g1State with id := "abc-123" }, []) :=
  ⟨⟨"bogus", by simp, by decide⟩, fun _ => ⟨rfl, rfl, rfl⟩,
   create_invalid_product_panics onlyEvents okApi
    { g1State with product_list := some ["bogus"] } ⟨"bogus", by simp, by decide⟩,
   by simp only [resourceDatadogSensitiveDataScannerGroupCreate, build_create_eq]; rfl⟩

/-! ## The request bodies -/

/-- C4: for a state whose product entries are all valid tokens, the create
request is built, and in its attributes each of description, name and
is_enabled is set exactly when `GetOk` reports the field present, then with
the value of the state, and product_list is the list of tokens of the state. -/
theorem create_body_copies_present_fields (isValid : String → Bool) (d : ResourceData)
    (hvalid : ∀ s ∈ d.product_list.getD [], isValid s = true) :
    ∃ a : SensitiveDataScannerGroupAttributes,
      buildSensitiveDataScannerGroupRequestBody isValid d =
          Except.ok { Data := some { Attributes := some a } } ∧
        (a.Description.isSome = (d.GetOk "description").2 ∧
          ∀ v, a.Description = some v → (d.GetOk "description").1 = Value.str v) ∧
        (a.Name.isSome = (d.GetOk "name").2 ∧
          ∀ v, a.Name = some v → (d.GetOk "name").1 = Value.str v) ∧
        (a.IsEnabled.isSome = (d.GetOk "is_enabled").2 ∧
          ∀ v, a.IsEnabled = some v → (d.GetOk "is_enabled").1 = Value.bool v) ∧
        a.ProductList = some (d.product_list.getD []) ∧
        d.Get "product_list" = Value.list ((d.product_list.getD []).map Value.str) := by
  refine ⟨builtAttributes d, ?_, ?_⟩
  · rw [build_create_eq, if_pos (List.all_eq_true.mpr hvalid)]
  · obtain ⟨id, desc, filt, en, nm, pl⟩ := d
    simp only [ResourceData.GetOk, ResourceData.Get, builtAttributes]
    simp only [String.reduceEq, ite_true, ite_false, if_true, if_false, reduceIte]
    rcases desc with _ | desc <;> rcases en with _ | (_ | _) <;> rcases nm with _ | nm <;>
      rcases pl with _ | pl <;>
      simp [getOkString, getOkBool, Option.filter] <;>
      split_ifs <;> simp_all

/-- C4 at the scenario state: exactly name, is_enabled and product_list are
set, as given, and description is unset. -/
theorem create_body_copies_present_fields_witness :
    (∀ s ∈ g1State.product_list.getD [], onlyEvents s = true) ∧
      buildSensitiveDataScannerGroupRequestBody onlyEvents g1State =
        Except.ok { Data := some { Attributes := some (
          { Description := none, Filter := some { Query := none }, IsEnabled := some true,
            Name := some "g1", ProductList := some ["DD_EVENTS"] }) } } ∧
      ∃ a : SensitiveDataScannerGroupAttributes,
        buildSensitiveDataScannerGroupRequestBody onlyEvents g1State =
            Except.ok { Data := some { Attributes := some a } } ∧
          (a.Description.isSome = (g1State.GetOk "description").2 ∧
            ∀ v, a.Description = some v → (g1State.GetOk "description").1 = Value.str v) ∧
          (a.Name.isSome = (g1State.GetOk "name").2 ∧
            ∀ v, a.Name = some v → (g1State.GetOk "name").1 = Value.str v) ∧
          (a.IsEnabled.isSome = (g1State.GetOk "is_enabled").2 ∧
            ∀ v, a.IsEnabled = some v → (g1State.GetOk "is_enabled").1 = Value.bool v) ∧
          a.ProductList = some (g1State.product_list.getD []) ∧
          g1State.Get "product_list" =
            Value.list ((g1State.product_list.getD []).map Value.str) :=
  ⟨by simp [g1State, onlyEvents], by rw [build_create_eq]; rfl,
   create_body_copies_present_fields onlyEvents g1State (by simp [g1State, onlyEvents])⟩

/-- C5, what the code does: for a state whose single filter block sets a
non-empty query `q`, the field is present under its schema address
`filter.0.query`, but both builders look it up under the key `query`, which
addresses nothing, so the filter of the built request has no query. -/
theorem filter_query_not_sent (isValid : String → Bool) (d : ResourceData) (q : String)
    (hfilter : d.filter = [{ query := some q }]) (hq : q ≠ "")
    (hvalid : ∀ s ∈ d.product_list.getD [], isValid s = true) :
    d.GetOk "filter.0.query" = (Value.str q, true) ∧
      d.GetOk "query" = (Value.nil, false) ∧
      ∃ a : SensitiveDataScannerGroupAttributes,
        buildSensitiveDataScannerGroupRequestBody isValid d =
            Except.ok { Data := some { Attributes := some a } } ∧
          buildSensitiveDataScannerGroupUpdateRequestBody isValid d =
            Except.ok { Data := { Attributes := some a } } ∧
          a.Filter = some { Query := none } := by
  refine ⟨?_, ?_, builtAttributes d, ?_, ?_, rfl⟩
  · simp only [ResourceData.GetOk, hfilter]
    simp [getOkString, hq]
  · simp only [ResourceData.GetOk]
    simp
  · rw [build_create_eq, if_pos (List.all_eq_true.mpr hvalid)]
  · rw [build_update_eq, if_pos (List.all_eq_true.mpr hvalid)]

/-- C5 at a concrete input: the scenario state with `filter { query = "service:web" }`. -/
theorem filter_query_not_sent_witness :
    ({ g1State with filter := [{ query := some "service:web" }] } : ResourceData).filter =
        [{ query := some "service:web" }] ∧
      "service:web" ≠ "" ∧
      (∀ s ∈ ({ g1State with filter := [{ query := some "service:web" }] } :
          ResourceData).product_list.getD [], onlyEvents s = true) ∧
      (ResourceData.GetOk { g1State with filter := [{ query := some "service:web" }] }
          "filter.0.query" = (Value.str "service:web", true) ∧
        ResourceData.GetOk { g1State with filter := [{ query := some "service:web" }] }
          "query" = (Value.nil, false) ∧
        ∃ a : SensitiveDataScannerGroupAttributes,
          buildSensitiveDataScannerGroupRequestBody onlyEvents
              { g1State with filter := [{ query := some "service:web" }] } =
              Except.ok { Data := some { Attributes := some a } } ∧
            buildSensitiveDataScannerGroupUpdateRequestBody onlyEvents
              { g1State with filter := [{ query := some "service:web" }] } =
              Except.ok { Data := { Attributes := some a } } ∧
            a.Filter = some { Query := none }) :=
  ⟨rfl, by decide, by simp [g1State, onlyEvents],
   filter_query_not_sent onlyEvents { g1State with filter := [{ query := some "service:web" }] }
    "service:web" rfl (by decide) (by simp [g1State, onlyEvents])⟩

/-- C6: for every state the update builder and the create builder produce
the same attributes (and fail alike when a product entry is rejected). -/
theorem update_attributes_eq_create_attributes (isValid : String → Bool) (d : ResourceData) :
    (buildSensitiveDataScannerGroupUpdateRequestBody isValid d).map
        (fun req => req.Data.Attributes) =
      (buildSensitiveDataScannerGroupRequestBody isValid d).map
        (fun req => req.Data.bind (fun data => data.Attributes)) := by
  rw [build_update_eq, build_create_eq]
  split_ifs <;> rfl

/-- C7, counterexample: in the state with every field omitted the filter is
omitted too, yet the update request carries a filter (with no query). -/
theorem update_omitted_filter_is_sent :
    ({} : ResourceData).filter = [] ∧
      (buildSensitiveDataScannerGroupUpdateRequestBody onlyEvents {}).map
          (fun req => req.Data.Attributes.bind (fun a => a.Filter)) =
        Except.ok (some { Query := none }) := by
  constructor
  · rfl
  · rw [build_update_eq]; rfl

/-- C7, amended: for a state in which product_list is omitted the update
request is built, its product_list is set to the empty list, each of
description, is_enabled and name omitted from the state is unset in the
request, the filter is set whether the state has one or not, and the request
does not depend on the id the state carries. -/
theorem update_replaces_omitted_fields (isValid : String → Bool) (d : ResourceData)
    (hpl : d.product_list = none) :
    ∃ a : SensitiveDataScannerGroupAttributes,
      buildSensitiveDataScannerGroupUpdateRequestBody isValid d =
          Except.ok { Data := { Attributes := some a } } ∧
        a.ProductList = some [] ∧
        (d.description = none → a.Description = none) ∧
        (d.is_enabled = none → a.IsEnabled = none) ∧
        (d.name = none → a.Name = none) ∧
        a.Filter.isSome = true ∧
        ∀ id : String,
          buildSensitiveDataScannerGroupUpdateRequestBody isValid { d with id := id } =
            buildSensitiveDataScannerGroupUpdateRequestBody isValid d := by
  refine ⟨builtAttributes d, ?_, ?_, ?_, ?_, ?_, rfl, ?_⟩
  · rw [build_update_eq]; simp [hpl]
  · simp [builtAttributes, hpl]
  · intro h; simp [builtAttributes, h]
  · intro h; simp [builtAttributes, h]
  · intro h; simp [builtAttributes, h]
  · intro id; rw [build_update_eq, build_update_eq]; rfl

/-- C7 amended, at the scenario: after a create with `product_list=["DD_EVENTS"]`
the state is updated to `name="g1", is_enabled=false` with no product_list;
the update body has product_list `[]`. -/
theorem update_replaces_omitted_fields_witness :
    ({ id := "abc-123", name := some "g1", is_enabled := some false } :
        ResourceData).product_list = none ∧
      buildSensitiveDataScannerGroupUpdateRequestBody onlyEvents
          { id := "abc-123", name := some "g1", is_enabled := some false } =
        Except.ok { Data := { Attributes := some (
          { Description := none, Filter := some { Query := none }, IsEnabled := none,
            Name := some "g1", ProductList := some [] }) } } ∧
      ∃ a : SensitiveDataScannerGroupAttributes,
        buildSensitiveDataScannerGroupUpdateRequestBody onlyEvents
            { id := "abc-123", name := some "g1", is_enabled := some false } =
            Except.ok { Data := { Attributes := some a } } ∧
          a.ProductList = some [] ∧
          (({ id := "abc-123", name := some "g1", is_enabled := some false } :
              ResourceData).description = none → a.Description = none) ∧
          (({ id := "abc-123", name := some "g1", is_enabled := some false } :
              ResourceData).is_enabled = none → a.IsEnabled = none) ∧
          (({ id := "abc-123", name := some "g1", is_enabled := some false } :
              ResourceData).name = none → a.Name = none) ∧
          a.Filter.isSome = true ∧
          ∀ id : String,
            buildSensitiveDataScannerGroupUpdateRequestBody onlyEvents
                { ({ id := "abc-123", name := some "g1", is_enabled := some false } :
                    ResourceData) with id := id } =
              buildSensitiveDataScannerGroupUpdateRequestBody onlyEvents
                { id := "abc-123", name := some "g1", is_enabled := some false } :=
  ⟨rfl, by rw [build_update_eq]; rfl,
   update_replaces_omitted_fields onlyEvents
    { id := "abc-123", name := some "g1", is_enabled := some false } rfl⟩

/-- C8, what the code does: when product_list holds an entry the enum
constructor rejects, the nil pointer it returns is dereferenced, and both
builders end in a nil-pointer panic instead of a request. -/
theorem invalid_product_panics (isValid : String → Bool) (d : ResourceData)
    (hinvalid : ∃ s ∈ d.product_list.getD [], isValid s = false) :
    buildSensitiveDataScannerGroupRequestBody isValid d =
        Except.error Panic.nilPointerDereference ∧
      buildSensitiveDataScannerGroupUpdateRequestBody isValid d =
        Except.error Panic.nilPointerDereference := by
  have h : ¬ (d.product_list.getD []).all isValid = true := by
    rw [List.all_eq_true]
    obtain ⟨s, hs, hf⟩ := hinvalid
    intro hall
    have := hall s hs
    simp [hf] at this
  rw [build_create_eq, build_update_eq, if_neg h, if_neg h]
  exact ⟨rfl, rfl⟩

/-- C8 at a concrete input: `product_list = ["DD_EVENTS", "bogus"]`, where
the enum table allows only `DD_EVENTS`. -/
theorem invalid_product_panics_witness :
    (∃ s ∈ ({ g1State with product_list := some ["DD_EVENTS", "bogus"] } :
        ResourceData).product_list.getD [], onlyEvents s = false) ∧
      buildSensitiveDataScannerGroupRequestBody onlyEvents
          { g1State with product_list := some ["DD_EVENTS", "bogus"] } =
        Except.error Panic.nilPointerDereference ∧
      buildSensitiveDataScannerGroupUpdateRequestBody onlyEvents
          { g1State with product_list := some ["DD_EVENTS", "bogus"] } =
        Except.error Panic.nilPointerDereference :=
  ⟨⟨"bogus", by simp, by decide⟩,
   invalid_product_panics onlyEvents { g1State with product_list := some ["DD_EVENTS", "bogus"] }
    ⟨"bogus", by simp, by decide⟩⟩

/-! ## Failure leaves the state alone -/

/-- C9: whenever Create, Read, Update or Delete returns diagnostics that
hold an error, the state it returns is the state it was called with. In
particular a failed delete call keeps the id, and a failed create or update
call, or an unparsed response to one, keeps the id. -/
theorem failure_leaves_state_untouched (isValid : String → Bool) (api : SensitiveDataScannerApi)
    (d d1 : ResourceData) (diags : Diagnostics) (herr : diags.HasError = true) :
    (resourceDatadogSensitiveDataScannerGroupCreate isValid api d = Except.ok (d1, diags) →
        d1 = d) ∧
      (resourceDatadogSensitiveDataScannerGroupRead api d = (d1, diags) → d1 = d) ∧
      (resourceDatadogSensitiveDataScannerGroupUpdate isValid api d = Except.ok (d1, diags) →
        d1 = d) ∧
      (resourceDatadogSensitiveDataScannerGroupDelete api d = Except.ok (d1, diags) →
        d1 = d) ∧
      (∀ r, resourceDatadogSensitiveDataScannerGroupDelete api d = Except.ok r →
        r.1.Id = d.Id) ∧
      (∀ body r, buildSensitiveDataScannerGroupRequestBody isValid d = Except.ok body →
        (api.CreateScanningGroup body).err ≠ none ∨
          (api.CreateScanningGroup body).resp.Unparsed = true →
        resourceDatadogSensitiveDataScannerGroupCreate isValid api d = Except.ok r →
        r.1.Id = d.Id) ∧
      (∀ body r, buildSensitiveDataScannerGroupUpdateRequestBody isValid d = Except.ok body →
        (api.UpdateScanningGroup d.Id body).err ≠ none ∨
          (api.UpdateScanningGroup d.Id body).resp.Unparsed = true →
        resourceDatadogSensitiveDataScannerGroupUpdate isValid api d = Except.ok r →
        r.1.Id = d.Id) := by
  have hne : diags ≠ [] := by
    intro h; rw [h, hasError_nil] at herr; exact Bool.noConfusion herr
  refine ⟨?_, ?_, ?_, ?_, ?_, ?_, ?_⟩
  · intro h
    obtain ⟨body, _, hcase | hcase⟩ := create_result isValid api d _ h
    · exact hcase.2.1
    · exact absurd hcase.2 hne
  · intro h
    rcases read_result api d with h1 | h1
    · rw [h] at h1; exact h1
    · rw [h] at h1; exact absurd h1 hne
  · intro h
    obtain ⟨body, _, hcase | hcase⟩ := update_result isValid api d _ h
    · exact hcase.2.1
    · exact absurd hcase.2 hne
  · intro h
    rw [delete_eq] at h
    injection h with h
    exact (congrArg Prod.fst h).symm
  · intro r h
    rw [delete_eq] at h
    injection h with h
    rw [← h]
  · intro body r hb hfail h
    obtain ⟨body1, hb1, hcase | hcase⟩ := create_result isValid api d r h
    · rw [hcase.2.1]
    · rw [hb] at hb1
      injection hb1 with hb1
      subst hb1
      rcases hfail with hf | hf
      · exact absurd hcase.1.1 hf
      · rw [hcase.1.2] at hf; exact Bool.noConfusion hf
  · intro body r hb hfail h
    obtain ⟨body1, hb1, hcase | hcase⟩ := update_result isValid api d r h
    · rw [hcase.2.1]
    · rw [hb] at hb1
      injection hb1 with hb1
      subst hb1
      rcases hfail with hf | hf
      · exact absurd hcase.1.1 hf
      · rw [hcase.1.2] at hf; exact Bool.noConfusion hf

/-- C9 at a concrete input: every call fails with `404 Not Found`; Create
returns the stored state and an error diagnostic. -/
theorem failure_leaves_state_untouched_witness :
    createFailure.HasError = true ∧
      resourceDatadogSensitiveDataScannerGroupCreate onlyEvents notFoundApi storedState =
        Except.ok (storedState, createFailure) ∧
      resourceDatadogSensitiveDataScannerGroupUpdate onlyEvents notFoundApi storedState =
        Except.ok (storedState, createFailure) ∧
      (resourceDatadogSensitiveDataScannerGroupCreate onlyEvents notFoundApi storedState =
          Except.ok (storedState, createFailure) → storedState = storedState) ∧
      (resourceDatadogSensitiveDataScannerGroupRead notFoundApi storedState =
          (storedState, createFailure) → storedState = storedState) ∧
      (resourceDatadogSensitiveDataScannerGroupUpdate onlyEvents notFoundApi storedState =
          Except.ok (storedState, createFailure) → storedState = storedState) ∧
      (resourceDatadogSensitiveDataScannerGroupDelete notFoundApi storedState =
          Except.ok (storedState, createFailure) → storedState = storedState) ∧
      (∀ r, resourceDatadogSensitiveDataScannerGroupDelete notFoundApi storedState =
          Except.ok r → r.1.Id = storedState.Id) ∧
      (∀ body r, buildSensitiveDataScannerGroupRequestBody onlyEvents storedState =
          Except.ok body →
        (notFoundApi.CreateScanningGroup body).err ≠ none ∨
          (notFoundApi.CreateScanningGroup body).resp.Unparsed = true →
        resourceDatadogSensitiveDataScannerGroupCreate onlyEvents notFoundApi storedState =
          Except.ok r →
        r.1.Id = storedState.Id) ∧
      (∀ body r, buildSensitiveDataScannerGroupUpdateRequestBody onlyEvents storedState =
          Except.ok body →
        (notFoundApi.UpdateScanningGroup storedState.Id body).err ≠ none ∨
          (notFoundApi.UpdateScanningGroup storedState.Id body).resp.Unparsed = true →
        resourceDatadogSensitiveDataScannerGroupUpdate onlyEvents notFoundApi storedState =
          Except.ok r →
        r.1.Id = storedState.Id) :=
  ⟨rfl,
   by simp only [resourceDatadogSensitiveDataScannerGroupCreate, build_create_eq]; rfl,
   by simp only [resourceDatadogSensitiveDataScannerGroupUpdate, build_update_eq]; rfl,
   failure_leaves_state_untouched onlyEvents notFoundApi storedState storedState createFailure
    rfl⟩

/-! ## Zero values -/

/-- C10: a field configured with the zero value of its type builds the same
request as the field left out, for is_enabled, description and name, in the
create and in the update builder; so no request carries is_enabled set to
false. -/
theorem zero_value_is_omission (isValid : String → Bool) (d : ResourceData) :
    buildSensitiveDataScannerGroupRequestBody isValid { d with is_enabled := some false } =
        buildSensitiveDataScannerGroupRequestBody isValid { d with is_enabled := none } ∧
      buildSensitiveDataScannerGroupRequestBody isValid { d with description := some "" } =
        buildSensitiveDataScannerGroupRequestBody isValid { d with description := none } ∧
      buildSensitiveDataScannerGroupRequestBody isValid { d with name := some "" } =
        buildSensitiveDataScannerGroupRequestBody isValid { d with name := none } ∧
      buildSensitiveDataScannerGroupUpdateRequestBody isValid { d with is_enabled := some false } =
        buildSensitiveDataScannerGroupUpdateRequestBody isValid { d with is_enabled := none } ∧
      buildSensitiveDataScannerGroupUpdateRequestBody isValid { d with description := some "" } =
        buildSensitiveDataScannerGroupUpdateRequestBody isValid { d with description := none } ∧
      buildSensitiveDataScannerGroupUpdateRequestBody isValid { d with name := some "" } =
        buildSensitiveDataScannerGroupUpdateRequestBody isValid { d with name := none } ∧
      (∀ req a, buildSensitiveDataScannerGroupRequestBody isValid d = Except.ok req →
        req.Data.bind (fun data => data.Attributes) = some a → a.IsEnabled ≠ some false) ∧
      (∀ req a, buildSensitiveDataScannerGroupUpdateRequestBody isValid d = Except.ok req →
        req.Data.Attributes = some a → a.IsEnabled ≠ some false) := by
  have hen : ∀ o : Option Bool, o.filter (fun b => b) ≠ some false := by
    intro o; rcases o with _ | (_ | _) <;> simp [Option.filter]
  refine ⟨?_, ?_, ?_, ?_, ?_, ?_, ?_, ?_⟩
  · rw [build_create_eq, build_create_eq]; rfl
  · rw [build_create_eq, build_create_eq]; rfl
  · rw [build_create_eq, build_create_eq]; rfl
  · rw [build_update_eq, build_update_eq]; rfl
  · rw [build_update_eq, build_update_eq]; rfl
  · rw [build_update_eq, build_update_eq]; rfl
  · intro req a h ha
    rw [build_create_eq] at h
    split_ifs at h
    injection h with h
    subst h
    simp only [Option.bind] at ha
    injection ha with ha
    subst ha
    exact hen d.is_enabled
  · intro req a h ha
    rw [build_update_eq] at h
    split_ifs at h
    injection h with h
    subst h
    injection ha with ha
    subst ha
    exact hen d.is_enabled

/-- C10 at the scenario state: with `is_enabled = false` the create request
leaves is_enabled unset, exactly as when the field is left out. -/
theorem zero_value_is_omission_witness :
    buildSensitiveDataScannerGroupRequestBody onlyEvents
        { g1State with is_enabled := some false } =
        Except.ok { Data := some { Attributes := some (
          { Description := none, Filter := some { Query := none }, IsEnabled := none,
            Name := some "g1", ProductList := some ["DD_EVENTS"] }) } } ∧
      buildSensitiveDataScannerGroupRequestBody onlyEvents
          { g1State with is_enabled := some false } =
        buildSensitiveDataScannerGroupRequestBody onlyEvents
          { g1State with is_enabled := none } :=
  ⟨by rw [build_create_eq]; rfl, (zero_value_is_omission onlyEvents g1State).1⟩

end Datadog
